import Mathlib

/-!
Verification development for the blog-admin server actions and the two
search-dialog client components of this repository.

The server actions (createBlog, updateBlog, deleteBlog, getBlog,
getPaginatedBlogs, generatePresignedUrl) are embedded as pure functions
over an explicit list of rows standing for the blogPosts table.  Effects
of the original code are made explicit:

* the session permission check (hasPermission "manage_blog_posts") becomes
  a Bool parameter `perm`;
* the Zod schema parse of the form payload (blogFormSchema, a file not part
  of the sources) becomes an `Except String BlogFormValues` parameter: the
  error string is the message the catch block would surface, that is the
  first issue message, defaulted to "Please check the form for errors.";
* an exception thrown by the store becomes an `Option String` parameter
  `dbFault` holding the Error message; the catch block routes it through
  `handleDbError` exactly as the source does;
* JS numbers that the code only adds, multiplies and compares are modelled
  as exact naturals; timestamps are naturals.

JS string primitives used by the code (trim, toLowerCase, startsWith,
split, includes, parseFloat) are re-implemented over character lists so
that every definition evaluates inside the kernel.
-/

/-- JS String.prototype.includes: `jsIncludes s pat` is true when `pat`
occurs as a contiguous substring of `s`. -/
def jsIncludes (s pat : String) : Bool :=
  decide (List.IsInfix pat.toList s.toList)

/-- JS String.prototype.startsWith, computed on character lists. -/
def jsStartsWith (s pre : String) : Bool :=
  go pre.toList s.toList
where
  go : List Char → List Char → Bool
  | [], _ => true
  | _ :: _, [] => false
  | a :: as, b :: bs => a == b && go as bs

/-- JS String.prototype.trim, as the character list that remains after
dropping whitespace from both ends. -/
def jsTrim (s : String) : List Char :=
  ((s.toList.dropWhile Char.isWhitespace).reverse.dropWhile Char.isWhitespace).reverse

/-- ASCII lowercase character list of a string; used to model the
case-insensitive ILIKE comparisons (ORM internals are out of scope, so
ILIKE with the pattern built as percent-term-percent is taken at its
contract: case-insensitive substring containment). -/
def lowerChars (s : String) : List Char :=
  s.toList.map Char.toLower

/-- Case-insensitive substring test modelling `ilike(column, pattern)`
where the pattern wraps the search term between two percent signs. -/
def ilikeContains (hay pat : String) : Bool :=
  decide (List.IsInfix (lowerChars pat) (lowerChars hay))

/-- JS String.prototype.split on a single separator character, giving the
groups between separators. -/
def splitOnChar (sep : Char) : List Char → List (List Char)
  | [] => [[]]
  | c :: cs =>
    match splitOnChar sep cs with
    | [] => [[c]]
    | g :: gs => if c = sep then [] :: g :: gs else (c :: g) :: gs

/-- Result envelope returned by every action in the sources. -/
structure ActionResult (T : Type) where
  success : Bool
  data : Option T := none
  error : Option String := none
  message : Option String := none
deriving DecidableEq, Repr

/-- Form payload accepted by blogFormSchema; optional fields stay optional
and the status enum is kept as its string value. -/
structure BlogFormValues where
  title : String
  slug : String
  author : String
  content : String
  status : String
  featuredImage : Option String
  publishedAt : Option String
  isFeatured : Option Bool
deriving DecidableEq, Repr

/-- The dbValues object both createBlog and updateBlog build from the
validated fields before talking to the store. -/
structure BlogInsertData where
  title : String
  slug : String
  author : String
  content : String
  status : String
  featuredImage : Option String
  publishedAt : Option String
  isFeatured : Bool
deriving DecidableEq, Repr

/-- A row of the blogPosts table.  Modelled from the spec: the schema file
itself is not among the sources; the spec data model gives a Post identity,
the form fields, and created and updated timestamps. -/
structure BlogRow where
  id : Nat
  title : String
  slug : String
  author : String
  content : String
  status : String
  featuredImage : Option String
  publishedAt : Option String
  isFeatured : Bool
  createdAt : Nat
  updatedAt : Nat
deriving DecidableEq, Repr

/-- The message of the duplicate-entry error. -/
def duplicateMsg : String := "A blog with this title or slug already exists"

/-- The message of the unexpected-error fallback. -/
def genericErrorMsg : String := "Something went wrong. Please try again."

/-- The message validatePermission returns on a failed permission check
(written without a literal apostrophe character). -/
def permissionDeniedMsg : String :=
  "You don" ++ String.singleton (Char.ofNat 39) ++ "t have permission to manage blog posts"

/-- The capability name passed to hasPermission by every blog action. -/
def manageBlogPostsCapability : String := "manage_blog_posts"

/-- handleDbError from the source: a Duplicate entry constraint message is
translated to the duplicate-entry envelope, anything else to the generic
one.  The argument is the caught Error message. -/
def handleDbError (T : Type) (msg : String) : ActionResult T :=
  if jsIncludes msg "Duplicate entry" then
    { success := false, error := some duplicateMsg }
  else
    { success := false, error := some genericErrorMsg }

/-- validatePermission from the source: none when the caller holds the
manage-blog-posts capability, otherwise the permission-denied envelope. -/
def validatePermission (T : Type) (perm : Bool) : Option (ActionResult T) :=
  if perm then none
  else some { success := false, error := some permissionDeniedMsg }

/-- The permission-denied envelope, for stating theorems. -/
def permissionResult (T : Type) : ActionResult T :=
  { success := false, error := some permissionDeniedMsg }

/-- Conversion of validated form fields to store values, as written
identically in createBlog and updateBlog: an empty-or-absent featuredImage
becomes null, an empty-or-absent publishedAt becomes null, an absent
isFeatured becomes false. -/
def toInsertData (v : BlogFormValues) : BlogInsertData :=
  { title := v.title
    slug := v.slug
    author := v.author
    content := v.content
    status := v.status
    featuredImage :=
      match v.featuredImage with
      | some s => if s = "" then none else some s
      | none => none
    publishedAt :=
      match v.publishedAt with
      | some s => if s = "" then none else some s
      | none => none
    isFeatured := v.isFeatured.getD false }

/-- Row created by the insert.  Modelled from the spec: the id is assigned
by the store (parameter newId) and the schema, which is not among the
sources, fills the created and updated timestamps at insert time. -/
def rowOfInsert (d : BlogInsertData) (newId now : Nat) : BlogRow :=
  { id := newId
    title := d.title
    slug := d.slug
    author := d.author
    content := d.content
    status := d.status
    featuredImage := d.featuredImage
    publishedAt := d.publishedAt
    isFeatured := d.isFeatured
    createdAt := now
    updatedAt := now }

/-- Effect of the update statement on the targeted row.  Modelled from the
spec for the timestamp: the schema (not among the sources) stamps an
updated-at time on update, per the spec sentence that update applies a
partial merge and stamps an updated-at time. -/
def applyUpdate (d : BlogInsertData) (now : Nat) (r : BlogRow) : BlogRow :=
  { id := r.id
    title := d.title
    slug := d.slug
    author := d.author
    content := d.content
    status := d.status
    featuredImage := d.featuredImage
    publishedAt := d.publishedAt
    isFeatured := d.isFeatured
    createdAt := r.createdAt
    updatedAt := now }

/-- createBlog: permission gate, schema parse, pre-insert uniqueness
lookup on title or slug, then the insert.  `dbFault` models an exception
raised by the store at the insert; the catch block sends it through
handleDbError. -/
def createBlog (perm : Bool) (parsed : Except String BlogFormValues)
    (st : List BlogRow) (newId now : Nat) (dbFault : Option String) :
    ActionResult (BlogInsertData × Nat) × List BlogRow :=
  match validatePermission (BlogInsertData × Nat) perm with
  | some e => (e, st)
  | none =>
    match parsed with
    | Except.error m => ({ success := false, error := some m }, st)
    | Except.ok v =>
      if st.any (fun r => r.title == v.title || r.slug == v.slug) then
        ({ success := false, error := some duplicateMsg }, st)
      else
        let dbValues := toInsertData v
        match dbFault with
        | some msg => (handleDbError (BlogInsertData × Nat) msg, st)
        | none =>
          ({ success := true
             data := some (dbValues, newId)
             message := some "Blog post created successfully" },
           st ++ [rowOfInsert dbValues newId now])

/-- updateBlog: permission gate, schema parse, existence check on the id,
uniqueness check against every other row, then the update.  `dbFault`
models an exception raised by the store at the update statement. -/
def updateBlog (perm : Bool) (id : Nat) (parsed : Except String BlogFormValues)
    (st : List BlogRow) (now : Nat) (dbFault : Option String) :
    ActionResult (BlogInsertData × Nat) × List BlogRow :=
  match validatePermission (BlogInsertData × Nat) perm with
  | some e => (e, st)
  | none =>
    match parsed with
    | Except.error m => ({ success := false, error := some m }, st)
    | Except.ok v =>
      if !(st.any (fun r => r.id == id)) then
        ({ success := false, error := some "Blog post not found" }, st)
      else if st.any (fun r => (r.title == v.title || r.slug == v.slug) && r.id != id) then
        ({ success := false, error := some duplicateMsg }, st)
      else
        match dbFault with
        | some msg => (handleDbError (BlogInsertData × Nat) msg, st)
        | none =>
          ({ success := true
             data := some (toInsertData v, id)
             message := some "Blog post updated successfully" },
           st.map (fun r => if r.id == id then applyUpdate (toInsertData v) now r else r))

/-- deleteBlog: permission gate, lookup of the row (also providing the
title used by the success message), then the delete.  `dbFault` models an
exception raised by the store, surfacing through handleDbError. -/
def deleteBlog (perm : Bool) (id : Nat) (st : List BlogRow)
    (dbFault : Option String) : ActionResult Unit × List BlogRow :=
  match validatePermission Unit perm with
  | some e => (e, st)
  | none =>
    match dbFault with
    | some msg => (handleDbError Unit msg, st)
    | none =>
      match st.find? (fun r => r.id == id) with
      | none => ({ success := false, error := some "Blog post not found" }, st)
      | some blog =>
        ({ success := true
           message := some ("Blog post \"" ++ blog.title ++ "\" deleted successfully") },
         st.filter (fun r => r.id != id))

/-- getBlog: permission gate, keyed lookup, not-found or the projected
row. -/
def getBlog (perm : Bool) (id : Nat) (st : List BlogRow)
    (dbFault : Option String) : ActionResult BlogRow :=
  match validatePermission BlogRow perm with
  | some e => e
  | none =>
    match dbFault with
    | some msg => handleDbError BlogRow msg
    | none =>
      match st.find? (fun r => r.id == id) with
      | none => { success := false, error := some "Blog post not found" }
      | some b => { success := true, data := some b }

/-- Pagination block of the getPaginatedBlogs payload. -/
structure PaginationInfo where
  currentPage : Nat
  totalPages : Nat
  totalCount : Nat
  pageSize : Nat
deriving DecidableEq, Repr

/-- Payload of getPaginatedBlogs. -/
structure PaginatedBlogsData where
  blogs : List BlogRow
  pagination : PaginationInfo
deriving DecidableEq, Repr

/-- Search condition of getPaginatedBlogs: with no search term, or with the
empty string (falsy in JS), every row matches; otherwise a row matches when
title, author or content contains the term case-insensitively. -/
def matchesSearch (search : Option String) (r : BlogRow) : Bool :=
  match search with
  | none => true
  | some s =>
    if s = "" then true
    else ilikeContains r.title s || ilikeContains r.author s || ilikeContains r.content s

/-- Descending creation-time order used by the orderBy clause. -/
def createdDesc (a b : BlogRow) : Prop := b.createdAt ≤ a.createdAt

instance : DecidableRel createdDesc := fun a b => Nat.decLe b.createdAt a.createdAt

instance : IsTotal BlogRow createdDesc := ⟨fun a b => Nat.le_total b.createdAt a.createdAt⟩

instance : IsTrans BlogRow createdDesc := ⟨fun _ _ _ h1 h2 => Nat.le_trans h2 h1⟩

/-- Math.ceil of the exact quotient of two naturals, as computed by
Math.ceil(totalCount / pageSize) for a positive pageSize. -/
def mathCeilDiv (a b : Nat) : Nat := (a + b - 1) / b

/-- getPaginatedBlogs: permission gate, then one query for the page slice
(filter, order by creation time descending, offset, limit) and one for the
filtered row count.  `dbFault` models an exception raised by the store.
The embedding covers page numbers from one upward; the store itself
rejects the negative offsets a smaller page number would produce. -/
def getPaginatedBlogs (perm : Bool) (dbFault : Option String)
    (page pageSize : Nat) (search : Option String) (st : List BlogRow) :
    ActionResult PaginatedBlogsData :=
  match validatePermission PaginatedBlogsData perm with
  | some e => e
  | none =>
    match dbFault with
    | some msg => handleDbError PaginatedBlogsData msg
    | none =>
      let skip := (page - 1) * pageSize
      let filtered := st.filter (matchesSearch search)
      let blogsData := ((List.insertionSort createdDesc filtered).drop skip).take pageSize
      let totalCount := filtered.length
      { success := true
        data := some
          { blogs := blogsData
            pagination :=
              { currentPage := page
                totalPages := mathCeilDiv totalCount pageSize
                totalCount := totalCount
                pageSize := pageSize } } }

/-- Parameters of the PutObjectCommand handed to getSignedUrl, together
with the requested expiry. -/
structure PresignRequest where
  bucket : String
  key : String
  contentType : String
  contentLength : Nat
  expiresIn : Nat
deriving DecidableEq, Repr

/-- Data of a successful generatePresignedUrl call. -/
structure PresignData where
  presignedUrl : String
  fileUrl : String
deriving DecidableEq, Repr

/-- MAX_FILE_SIZE from the source: five megabytes in bytes. -/
def maxFileSize : Nat := 5 * 1024 * 1024

/-- generatePresignedUrl: inline permission check, content-type check,
size check, then key generation and signing.  The signer (getSignedUrl
against the configured client) is the function parameter `sign`; the uuid,
bucket and public domain are environment parameters.  `dbFault` models an
exception raised while signing, routed through handleDbError by the catch
block. -/
def generatePresignedUrl (perm : Bool) (sign : PresignRequest → String)
    (bucket domain uniqueId : String) (dbFault : Option String)
    (fileType : String) (fileSize : Nat) : ActionResult PresignData :=
  if !perm then { success := false, error := some "Unauthorized" }
  else if !(jsStartsWith fileType "image/") then
    { success := false, error := some "Only image files are allowed" }
  else if fileSize > maxFileSize then
    { success := false, error := some "File size exceeds the 5MB limit" }
  else
    let fileExtension : String := ⟨(splitOnChar '/' fileType.toList).getD 1 []⟩
    let key := "blog-images/" ++ uniqueId ++ "." ++ fileExtension
    match dbFault with
    | some msg => handleDbError PresignData msg
    | none =>
      let presignedUrl := sign
        { bucket := bucket
          key := key
          contentType := fileType
          contentLength := fileSize
          expiresIn := 300 }
      { success := true
        data := some { presignedUrl := presignedUrl, fileUrl := domain ++ "/" ++ key } }

/-- Digit run to a natural number, most significant digit first. -/
def digitsVal (ds : List Char) : Nat :=
  ds.foldl (fun n c => 10 * n + (c.toNat - 48)) 0

/-- JS parseFloat over exact rationals: skip leading whitespace, optional
sign, longest run of digits, optional fraction, optional exponent whose
digits must be nonempty to count; none models NaN (nothing numeric).  An
Infinity literal is also mapped to none: the only consumer guards with
isNaN-or-out-of-range, and Infinity falls to the same rejection branch
either way. -/
def jsParseFloat (s : String) : Option ℚ :=
  let cs := s.toList.dropWhile Char.isWhitespace
  let (sgn, cs1) :=
    match cs with
    | '-' :: rest => ((-1 : Int), rest)
    | '+' :: rest => ((1 : Int), rest)
    | _ => ((1 : Int), cs)
  if jsStartsWith.go "Infinity".toList cs1 then none
  else
    let intPart := cs1.takeWhile Char.isDigit
    let cs2 := cs1.dropWhile Char.isDigit
    let (fracPart, cs3) :=
      match cs2 with
      | '.' :: rest => (rest.takeWhile Char.isDigit, rest.dropWhile Char.isDigit)
      | _ => ([], cs2)
    if intPart.isEmpty && fracPart.isEmpty then none
    else
      let mantNum : Int := (digitsVal intPart * 10 ^ fracPart.length + digitsVal fracPart : Nat)
      let expVal : Int :=
        match cs3 with
        | 'e' :: '-' :: ds => -(digitsVal (ds.takeWhile Char.isDigit) : Int)
        | 'e' :: '+' :: ds => (digitsVal (ds.takeWhile Char.isDigit) : Int)
        | 'e' :: ds => (digitsVal (ds.takeWhile Char.isDigit) : Int)
        | 'E' :: '-' :: ds => -(digitsVal (ds.takeWhile Char.isDigit) : Int)
        | 'E' :: '+' :: ds => (digitsVal (ds.takeWhile Char.isDigit) : Int)
        | 'E' :: ds => (digitsVal (ds.takeWhile Char.isDigit) : Int)
        | _ => 0
      if 0 ≤ expVal then
        some (mkRat (sgn * mantNum * 10 ^ expVal.toNat) (10 ^ fracPart.length))
      else
        some (mkRat (sgn * mantNum) (10 ^ fracPart.length * 10 ^ (-expVal).toNat))

/-- An event row as the attach dialog sees it. -/
structure EventItem where
  id : Nat
  title : String
  description : Option String
  startingAt : Nat
  eventType : String
deriving DecidableEq, Repr

/-- Local state of the attach-event dialog that handleAttachEvent reads
and writes: the query text, the result list and the per-event weight
strings (a record object in the source, here an association list). -/
structure AttachDialogState where
  searchQuery : String
  searchResults : List EventItem
  eventWeights : List (Nat × String)
deriving DecidableEq, Repr

/-- Envelope of the awaited attachEventToRanklist call. -/
structure AttachResponse where
  success : Bool
  error : Option String
deriving DecidableEq, Repr

/-- Everything observable that one handleAttachEvent run produces: the
attach call (if the weight guard passed) with its arguments, the toasts,
the next dialog state, whether handleSearch was re-invoked, and whether
the onSuccess callback fired. -/
structure AttachOutcome where
  attachCall : Option (Nat × Nat × ℚ)
  toastSuccess : Option String
  toastError : Option String
  dialog : AttachDialogState
  searchReissued : Bool
  onSuccessCalled : Bool
deriving DecidableEq, Repr

/-- The weight string handleAttachEvent starts from: the entry of the
weights record, or the string "1.0" when the entry is missing or empty
(the source uses JS or-else, under which the empty string is falsy). -/
def weightString (ws : List (Nat × String)) (eventId : Nat) : String :=
  match List.lookup eventId ws with
  | some s => if s = "" then "1.0" else s
  | none => "1.0"

/-- handleAttachEvent from the attach-event dialog: parse the weight,
reject NaN or out-of-range client-side without any call, otherwise invoke
the attach action; on a success response drop the event from the results,
drop its weight entry, re-run the search when this was the sole result and
the trimmed query still has length at least two, and fire onSuccess.  The
response of the awaited action is the parameter `resp`. -/
def handleAttachEvent (ranklistId : Nat) (st : AttachDialogState)
    (eventId : Nat) (resp : AttachResponse) : AttachOutcome :=
  let v? := jsParseFloat (weightString st.eventWeights eventId)
  match v? with
  | none =>
    { attachCall := none
      toastSuccess := none
      toastError := some "Weight must be between 0.0 and 1.0"
      dialog := st
      searchReissued := false
      onSuccessCalled := false }
  | some v =>
    if v < 0 ∨ 1 < v then
      { attachCall := none
        toastSuccess := none
        toastError := some "Weight must be between 0.0 and 1.0"
        dialog := st
        searchReissued := false
        onSuccessCalled := false }
    else if resp.success then
      { attachCall := some (ranklistId, eventId, v)
        toastSuccess := some "Event attached successfully"
        toastError := none
        dialog :=
          { searchQuery := st.searchQuery
            searchResults := st.searchResults.filter (fun e => e.id != eventId)
            eventWeights := st.eventWeights.filter (fun p => p.1 != eventId) }
        searchReissued := decide (st.searchResults.length = 1 ∧ 2 ≤ (jsTrim st.searchQuery).length)
        onSuccessCalled := true }
    else
      { attachCall := some (ranklistId, eventId, v)
        toastSuccess := none
        toastError := some
          (match resp.error with
           | some s => if s = "" then "Failed to attach event" else s
           | none => "Failed to attach event")
        dialog := st
        searchReissued := false
        onSuccessCalled := false }

/-- A user row as the generic user-search dialog sees it. -/
structure UserItem where
  id : String
  name : String
  email : String
  studentId : Option String
  image : Option String
deriving DecidableEq, Repr

/-- Envelope of the awaited addUser call; the data, when present, is
whatever the per-item action returned. -/
structure AddUserResponse (δ : Type) where
  success : Bool
  error : Option String
  data : Option δ
deriving DecidableEq, Repr

/-- Everything observable that one handleAddUser run produces; callbackArg
is some x exactly when onUserAdded was invoked, with x the data it was
given. -/
structure AddOutcome (δ : Type) where
  toastSuccessShown : Bool
  toastError : Option String
  newResults : List UserItem
  searchReissued : Bool
  callbackArg : Option (Option δ)
deriving DecidableEq, Repr

/-- handleAddUser from the generic user-search dialog: invoke the per-item
action; on success drop the user from the results, re-run handleSearch
when this was the sole result, and hand the response data to the
onUserAdded callback; on failure surface the error or a label-derived
fallback. -/
def handleAddUser (δ : Type) (results : List UserItem) (userId : String)
    (buttonLabelLower : String) (resp : AddUserResponse δ) : AddOutcome δ :=
  if resp.success then
    { toastSuccessShown := true
      toastError := none
      newResults := results.filter (fun u => u.id != userId)
      searchReissued := decide (results.length = 1)
      callbackArg := some resp.data }
  else
    { toastSuccessShown := false
      toastError := some
        (match resp.error with
         | some s => if s = "" then "Failed to " ++ buttonLabelLower else s
         | none => "Failed to " ++ buttonLabelLower)
      newResults := results
      searchReissued := false
      callbackArg := none }

/-- The debounced-search effect of the attach-event dialog: once the
debounced value settles, a search runs when the value is nonempty and its
trimmed length is at least two; otherwise the results are cleared. -/
def attachDialogDebounceEffect (debouncedSearch : String)
    (results : List EventItem) : Bool × List EventItem :=
  if debouncedSearch ≠ "" ∧ 2 ≤ (jsTrim debouncedSearch).length then (true, results)
  else (false, [])

/-- The debounced-search effect of the generic user-search dialog: the
same guard starts a search, but the effect has no else branch, so a short
query leaves whatever results are currently shown in place. -/
def userDialogDebounceEffect (debouncedSearch : String)
    (results : List UserItem) : Bool × List UserItem :=
  if debouncedSearch ≠ "" ∧ 2 ≤ (jsTrim debouncedSearch).length then (true, results)
  else (false, results)

/-- Bounds characterizing mathCeilDiv as the ceiling of the exact
quotient: the page count covers the whole row count, and one page fewer
would not. -/
theorem mathCeilDiv_bounds (a b : Nat) (hb : 0 < b) :
    a ≤ mathCeilDiv a b * b ∧ mathCeilDiv a b * b < a + b := by
  unfold mathCeilDiv
  obtain ⟨q, hq⟩ : ∃ q, (a + b - 1) / b = q := ⟨_, rfl⟩
  obtain ⟨r, hr⟩ : ∃ r, (a + b - 1) % b = r := ⟨_, rfl⟩
  have h1 : b * q + r = a + b - 1 := by rw [← hq, ← hr]; exact Nat.div_add_mod _ _
  have h2 : r < b := by rw [← hr]; exact Nat.mod_lt _ hb
  rw [hq, Nat.mul_comm]
  obtain ⟨m, hm⟩ : ∃ m, b * q = m := ⟨_, rfl⟩
  rw [hm] at h1 ⊢
  omega

/-- Deleting the key of an association list by filtering makes a later
lookup of that key fail. -/
theorem lookup_filter_ne_eq_none (a : Nat) (l : List (Nat × String)) :
    List.lookup a (l.filter (fun p => p.1 != a)) = none := by
  induction l with
  | nil => rfl
  | cons p l ih =>
    obtain ⟨k, s⟩ := p
    by_cases h : k = a
    · simpa [List.filter_cons, h] using ih
    · have h1 : (k != a) = true := bne_iff_ne.mpr h
      have h2 : (a == k) = false := beq_eq_false_iff_ne.mpr (Ne.symm h)
      simp [List.filter_cons, h1, List.lookup, h2, ih]

/-- C1: a createBlog call whose payload repeats the title or the slug of
an existing row answers with the duplicate-entry envelope and inserts
nothing, and the same envelope comes back when the store itself raises a
Duplicate entry constraint error at the insert. -/
theorem createBlog_duplicate_guard (v : BlogFormValues) (st : List BlogRow)
    (newId now : Nat) (dbFault : Option String) :
    ((∃ r ∈ st, r.title = v.title ∨ r.slug = v.slug) →
      createBlog true (Except.ok v) st newId now dbFault =
        ({ success := false, error := some duplicateMsg }, st)) ∧
    (∀ msg, jsIncludes msg "Duplicate entry" = true →
      createBlog true (Except.ok v) st newId now (some msg) =
        ({ success := false, error := some duplicateMsg }, st)) := by
  constructor
  · rintro ⟨r, hr, hor⟩
    have hany : st.any (fun r => r.title == v.title || r.slug == v.slug) = true := by
      refine List.any_eq_true.2 ⟨r, hr, ?_⟩
      cases hor with
      | inl h => simp [h]
      | inr h => simp [h]
    simp [createBlog, validatePermission, hany]
  · intro msg hmsg
    by_cases hany : st.any (fun r => r.title == v.title || r.slug == v.slug) = true
    · simp [createBlog, validatePermission, hany]
    · have hany' : st.any (fun r => r.title == v.title || r.slug == v.slug) = false :=
        Bool.eq_false_iff.2 hany
      simp [createBlog, validatePermission, hany', handleDbError, hmsg]

/-- Witness for C1 at a one-row store colliding on the slug, and at an
empty store whose insert throws a Duplicate entry constraint error. -/
theorem createBlog_duplicate_guard_witness :
    createBlog true
        (Except.ok ⟨"Hello", "hello", "Ann", "body", "draft", none, none, none⟩)
        [⟨1, "Other", "hello", "Bob", "c", "draft", none, none, false, 0, 0⟩] 2 10 none =
      ({ success := false, error := some duplicateMsg },
       [⟨1, "Other", "hello", "Bob", "c", "draft", none, none, false, 0, 0⟩]) ∧
    createBlog true
        (Except.ok ⟨"Hello", "hello", "Ann", "body", "draft", none, none, none⟩)
        [] 2 10 (some "Duplicate entry for key slug") =
      ({ success := false, error := some duplicateMsg }, []) := by
  constructor
  · exact (createBlog_duplicate_guard
        ⟨"Hello", "hello", "Ann", "body", "draft", none, none, none⟩
        [⟨1, "Other", "hello", "Bob", "c", "draft", none, none, false, 0, 0⟩] 2 10 none).1
      ⟨⟨1, "Other", "hello", "Bob", "c", "draft", none, none, false, 0, 0⟩,
       by simp, Or.inr rfl⟩
  · exact (createBlog_duplicate_guard
        ⟨"Hello", "hello", "Ann", "body", "draft", none, none, none⟩
        [] 2 10 none).2 "Duplicate entry for key slug" (by decide)

/-- C5: with the permission check failing, each of createBlog, updateBlog,
deleteBlog and generatePresignedUrl returns its permission-failure
envelope with no data, and the store value is passed through unchanged;
the results do not depend on the store, the payload or the signer, so
nothing is read, mutated or signed. -/
theorem mutating_actions_permission_gate (parsed : Except String BlogFormValues)
    (st : List BlogRow) (newId now id : Nat) (dbFault : Option String)
    (sign : PresignRequest → String) (bucket domain uniqueId fileType : String)
    (fileSize : Nat) :
    createBlog false parsed st newId now dbFault =
      (permissionResult (BlogInsertData × Nat), st) ∧
    updateBlog false id parsed st now dbFault =
      (permissionResult (BlogInsertData × Nat), st) ∧
    deleteBlog false id st dbFault = (permissionResult Unit, st) ∧
    generatePresignedUrl false sign bucket domain uniqueId dbFault fileType fileSize =
      { success := false, data := none, error := some "Unauthorized", message := none } := by
  refine ⟨?_, ?_, ?_, ?_⟩ <;>
    simp [createBlog, updateBlog, deleteBlog, generatePresignedUrl,
      validatePermission, permissionResult]

/-- C6 counterexample: the permission-failure message of createBlog is the
fixed validatePermission string, and that string contains the required
capability name (its underscores rendered as spaces), so the message does
reveal which capability was required, against the claim that it never
does. -/
theorem permission_message_reveals_capability :
    (createBlog false (Except.error "x") [] 0 0 none).1.error = some permissionDeniedMsg ∧
    jsIncludes permissionDeniedMsg
      (⟨manageBlogPostsCapability.toList.map (fun c => if c = '_' then ' ' else c)⟩ : String) =
      true := by
  exact ⟨by decide, by decide⟩

/-- C6 amended: the permission-failure message is a fixed string per
action; the blog-post actions all use the validatePermission message,
which names the blog-post capability, while generatePresignedUrl answers
with the generic Unauthorized. -/
theorem permission_failure_messages (parsed : Except String BlogFormValues)
    (st : List BlogRow) (newId now id page pageSize : Nat)
    (search : Option String) (dbFault : Option String)
    (sign : PresignRequest → String) (bucket domain uniqueId fileType : String)
    (fileSize : Nat) :
    (createBlog false parsed st newId now dbFault).1.error = some permissionDeniedMsg ∧
    (updateBlog false id parsed st now dbFault).1.error = some permissionDeniedMsg ∧
    (deleteBlog false id st dbFault).1.error = some permissionDeniedMsg ∧
    (getBlog false id st dbFault).error = some permissionDeniedMsg ∧
    (getPaginatedBlogs false dbFault page pageSize search st).error = some permissionDeniedMsg ∧
    (generatePresignedUrl false sign bucket domain uniqueId dbFault fileType fileSize).error =
      some "Unauthorized" := by
  refine ⟨?_, ?_, ?_, ?_, ?_, ?_⟩ <;>
    simp [createBlog, updateBlog, deleteBlog, getBlog, getPaginatedBlogs,
      generatePresignedUrl, validatePermission]

/-- C2: generatePresignedUrl checks permission, then the image content
type, then the size bound, in that order, answering the first failing
check without building any request; when all three pass it signs a put
request for the key assembled from the fixed prefix, the unique id and
the extension split out of the content type, valid for 300 seconds, and
the public URL is the configured domain, a slash and that key. -/
theorem generatePresignedUrl_contract (perm : Bool) (sign : PresignRequest → String)
    (bucket domain uniqueId fileType : String) (fileSize : Nat) :
    (perm = false →
      generatePresignedUrl perm sign bucket domain uniqueId none fileType fileSize =
        { success := false, error := some "Unauthorized" }) ∧
    (perm = true → jsStartsWith fileType "image/" = false →
      generatePresignedUrl perm sign bucket domain uniqueId none fileType fileSize =
        { success := false, error := some "Only image files are allowed" }) ∧
    (perm = true → jsStartsWith fileType "image/" = true → maxFileSize < fileSize →
      generatePresignedUrl perm sign bucket domain uniqueId none fileType fileSize =
        { success := false, error := some "File size exceeds the 5MB limit" }) ∧
    (perm = true → jsStartsWith fileType "image/" = true → fileSize ≤ maxFileSize →
      generatePresignedUrl perm sign bucket domain uniqueId none fileType fileSize =
        { success := true
          data := some
            { presignedUrl := sign
                { bucket := bucket
                  key := "blog-images/" ++ uniqueId ++ "." ++
                    (⟨(splitOnChar '/' fileType.toList).getD 1 []⟩ : String)
                  contentType := fileType
                  contentLength := fileSize
                  expiresIn := 300 }
              fileUrl := domain ++ "/" ++
                ("blog-images/" ++ uniqueId ++ "." ++
                  (⟨(splitOnChar '/' fileType.toList).getD 1 []⟩ : String)) } }) := by
  refine ⟨?_, ?_, ?_, ?_⟩
  · intro hperm
    simp [generatePresignedUrl, hperm]
  · intro hperm hft
    simp [generatePresignedUrl, hperm, hft]
  · intro hperm hft hsize
    simp [generatePresignedUrl, hperm, hft, hsize]
  · intro hperm hft hsize
    have hnot : ¬ (fileSize > maxFileSize) := not_lt.mpr hsize
    simp [generatePresignedUrl, hperm, hft, hnot]

/-- Witness for C2 at the four concrete outcomes: a denied caller, a
non-image content type, an oversized image, and a small png. -/
theorem generatePresignedUrl_contract_witness :
    generatePresignedUrl false (fun _ => "signed") "b" "https://cdn" "uid" none "image/png" 100 =
      { success := false, error := some "Unauthorized" } ∧
    generatePresignedUrl true (fun _ => "signed") "b" "https://cdn" "uid" none "text/plain" 100 =
      { success := false, error := some "Only image files are allowed" } ∧
    generatePresignedUrl true (fun _ => "signed") "b" "https://cdn" "uid" none "image/png" 6000000 =
      { success := false, error := some "File size exceeds the 5MB limit" } ∧
    generatePresignedUrl true (fun _ => "signed") "b" "https://cdn" "uid" none "image/png" 100 =
      { success := true
        data := some
          { presignedUrl := (fun _ => "signed")
              ({ bucket := "b"
                 key := "blog-images/" ++ "uid" ++ "." ++
                   (⟨(splitOnChar '/' "image/png".toList).getD 1 []⟩ : String)
                 contentType := "image/png"
                 contentLength := 100
                 expiresIn := 300 } : PresignRequest)
            fileUrl := "https://cdn" ++ "/" ++
              ("blog-images/" ++ "uid" ++ "." ++
                (⟨(splitOnChar '/' "image/png".toList).getD 1 []⟩ : String)) } } := by
  refine ⟨?_, ?_, ?_, ?_⟩
  · exact (generatePresignedUrl_contract false (fun _ => "signed") "b" "https://cdn" "uid"
      "image/png" 100).1 rfl
  · exact (generatePresignedUrl_contract true (fun _ => "signed") "b" "https://cdn" "uid"
      "text/plain" 100).2.1 rfl (by decide)
  · exact (generatePresignedUrl_contract true (fun _ => "signed") "b" "https://cdn" "uid"
      "image/png" 6000000).2.2.1 rfl (by decide) (by decide)
  · exact (generatePresignedUrl_contract true (fun _ => "signed") "b" "https://cdn" "uid"
      "image/png" 100).2.2.2 rfl (by decide) (by decide)

/-- C4: updateBlog answers not-found when no row carries the id; answers
the duplicate-entry envelope, leaving the store unchanged, when a
different row already carries the title or the slug; otherwise it rewrites
exactly the targeted row with the validated fields and stamps the fresh
updated-at time. -/
theorem updateBlog_contract (id : Nat) (v : BlogFormValues) (st : List BlogRow)
    (now : Nat) (dbFault : Option String) :
    ((¬ ∃ r ∈ st, r.id = id) →
      updateBlog true id (Except.ok v) st now dbFault =
        ({ success := false, error := some "Blog post not found" }, st)) ∧
    ((∃ r ∈ st, r.id = id) →
      (∃ r ∈ st, (r.title = v.title ∨ r.slug = v.slug) ∧ r.id ≠ id) →
      updateBlog true id (Except.ok v) st now dbFault =
        ({ success := false, error := some duplicateMsg }, st)) ∧
    ((∃ r ∈ st, r.id = id) →
      (¬ ∃ r ∈ st, (r.title = v.title ∨ r.slug = v.slug) ∧ r.id ≠ id) →
      updateBlog true id (Except.ok v) st now none =
        ({ success := true
           data := some (toInsertData v, id)
           message := some "Blog post updated successfully" },
         st.map (fun r => if r.id == id then applyUpdate (toInsertData v) now r else r))) ∧
    (∀ r, (applyUpdate (toInsertData v) now r).updatedAt = now ∧
          (applyUpdate (toInsertData v) now r).title = v.title ∧
          (applyUpdate (toInsertData v) now r).slug = v.slug ∧
          (applyUpdate (toInsertData v) now r).id = r.id) := by
  have hex : (st.any (fun r => r.id == id) = true) ↔ (∃ r ∈ st, r.id = id) := by
    simp
  have hdup : (st.any (fun r => (r.title == v.title || r.slug == v.slug) && r.id != id) = true) ↔
      (∃ r ∈ st, (r.title = v.title ∨ r.slug = v.slug) ∧ r.id ≠ id) := by
    simp
  refine ⟨?_, ?_, ?_, ?_⟩
  · intro h
    have h1 : st.any (fun r => r.id == id) = false :=
      Bool.eq_false_iff.2 (fun hc => h (hex.1 hc))
    simp [updateBlog, validatePermission, h1]
  · intro h1 h2
    simp [updateBlog, validatePermission, hex.2 h1, hdup.2 h2]
  · intro h1 h2
    have h2' : st.any (fun r => (r.title == v.title || r.slug == v.slug) && r.id != id) = false :=
      Bool.eq_false_iff.2 (fun hc => h2 (hdup.1 hc))
    simp [updateBlog, validatePermission, hex.2 h1, h2']
  · intro r
    exact ⟨rfl, rfl, rfl, rfl⟩

/-- Witness for C4 at a two-row store: an unknown id, a slug collision
with the other row, and a clean update of row one. -/
theorem updateBlog_contract_witness :
    updateBlog true 9
        (Except.ok ⟨"T1", "s1", "A", "c", "draft", none, none, none⟩)
        [⟨1, "T1", "s1", "A", "c", "draft", none, none, false, 0, 0⟩,
         ⟨2, "T2", "s2", "B", "c", "draft", none, none, false, 0, 0⟩] 5 none =
      ({ success := false, error := some "Blog post not found" },
       [⟨1, "T1", "s1", "A", "c", "draft", none, none, false, 0, 0⟩,
        ⟨2, "T2", "s2", "B", "c", "draft", none, none, false, 0, 0⟩]) ∧
    updateBlog true 1
        (Except.ok ⟨"T9", "s2", "A", "c", "draft", none, none, none⟩)
        [⟨1, "T1", "s1", "A", "c", "draft", none, none, false, 0, 0⟩,
         ⟨2, "T2", "s2", "B", "c", "draft", none, none, false, 0, 0⟩] 5 none =
      ({ success := false, error := some duplicateMsg },
       [⟨1, "T1", "s1", "A", "c", "draft", none, none, false, 0, 0⟩,
        ⟨2, "T2", "s2", "B", "c", "draft", none, none, false, 0, 0⟩]) ∧
    updateBlog true 1
        (Except.ok ⟨"T1", "s1", "A", "c2", "published", none, none, none⟩)
        [⟨1, "T1", "s1", "A", "c", "draft", none, none, false, 0, 0⟩,
         ⟨2, "T2", "s2", "B", "c", "draft", none, none, false, 0, 0⟩] 5 none =
      ({ success := true
         data := some (toInsertData ⟨"T1", "s1", "A", "c2", "published", none, none, none⟩, 1)
         message := some "Blog post updated successfully" },
       [⟨1, "T1", "s1", "A", "c2", "published", none, none, false, 0, 5⟩,
        ⟨2, "T2", "s2", "B", "c", "draft", none, none, false, 0, 0⟩]) := by
  refine ⟨?_, ?_, ?_⟩
  · exact (updateBlog_contract 9 ⟨"T1", "s1", "A", "c", "draft", none, none, none⟩
      [⟨1, "T1", "s1", "A", "c", "draft", none, none, false, 0, 0⟩,
       ⟨2, "T2", "s2", "B", "c", "draft", none, none, false, 0, 0⟩] 5 none).1 (by decide)
  · exact (updateBlog_contract 1 ⟨"T9", "s2", "A", "c", "draft", none, none, none⟩
      [⟨1, "T1", "s1", "A", "c", "draft", none, none, false, 0, 0⟩,
       ⟨2, "T2", "s2", "B", "c", "draft", none, none, false, 0, 0⟩] 5 none).2.1
      ⟨⟨1, "T1", "s1", "A", "c", "draft", none, none, false, 0, 0⟩, by simp, rfl⟩
      ⟨⟨2, "T2", "s2", "B", "c", "draft", none, none, false, 0, 0⟩, by simp,
       Or.inr rfl, by decide⟩
  · have h := (updateBlog_contract 1 ⟨"T1", "s1", "A", "c2", "published", none, none, none⟩
      [⟨1, "T1", "s1", "A", "c", "draft", none, none, false, 0, 0⟩,
       ⟨2, "T2", "s2", "B", "c", "draft", none, none, false, 0, 0⟩] 5 none).2.2.1
      ⟨⟨1, "T1", "s1", "A", "c", "draft", none, none, false, 0, 0⟩, by simp, rfl⟩
      (by decide)
    simpa using h

/-- C10: every action funnels its catch into the one shared handleDbError
translator, so a store error whose message mentions Duplicate entry makes
even deleteBlog, getBlog, getPaginatedBlogs and generatePresignedUrl
answer the duplicate-entry envelope, although none of them inserts or
updates anything unique, while any other message yields the generic
envelope. -/
theorem db_error_translator_shared (msg : String) (id page pageSize : Nat)
    (search : Option String) (st : List BlogRow) (sign : PresignRequest → String)
    (bucket domain uniqueId fileType : String) (fileSize : Nat)
    (hft : jsStartsWith fileType "image/" = true) (hfs : fileSize ≤ maxFileSize) :
    (jsIncludes msg "Duplicate entry" = true →
      deleteBlog true id st (some msg) =
        ({ success := false, error := some duplicateMsg }, st) ∧
      getBlog true id st (some msg) = { success := false, error := some duplicateMsg } ∧
      getPaginatedBlogs true (some msg) page pageSize search st =
        { success := false, error := some duplicateMsg } ∧
      generatePresignedUrl true sign bucket domain uniqueId (some msg) fileType fileSize =
        { success := false, error := some duplicateMsg }) ∧
    (jsIncludes msg "Duplicate entry" = false →
      deleteBlog true id st (some msg) =
        ({ success := false, error := some genericErrorMsg }, st) ∧
      getBlog true id st (some msg) = { success := false, error := some genericErrorMsg } ∧
      getPaginatedBlogs true (some msg) page pageSize search st =
        { success := false, error := some genericErrorMsg } ∧
      generatePresignedUrl true sign bucket domain uniqueId (some msg) fileType fileSize =
        { success := false, error := some genericErrorMsg }) := by
  have hnot : ¬ (fileSize > maxFileSize) := not_lt.mpr hfs
  constructor
  · intro h
    refine ⟨?_, ?_, ?_, ?_⟩ <;>
      simp [deleteBlog, getBlog, getPaginatedBlogs, generatePresignedUrl,
        validatePermission, handleDbError, h, hft, hnot]
  · intro h
    refine ⟨?_, ?_, ?_, ?_⟩ <;>
      simp [deleteBlog, getBlog, getPaginatedBlogs, generatePresignedUrl,
        validatePermission, handleDbError, h, hft, hnot]

/-- Witness for C10 at a constraint-style message and at a plain network
message, with small concrete stores and a small png request. -/
theorem db_error_translator_shared_witness :
    (deleteBlog true 3 [] (some "Duplicate entry hello for key slug") =
      ({ success := false, error := some duplicateMsg }, []) ∧
     getBlog true 3 [] (some "Duplicate entry hello for key slug") =
      { success := false, error := some duplicateMsg } ∧
     getPaginatedBlogs true (some "Duplicate entry hello for key slug") 1 10 none [] =
      { success := false, error := some duplicateMsg } ∧
     generatePresignedUrl true (fun _ => "signed") "b" "https://cdn" "uid"
        (some "Duplicate entry hello for key slug") "image/png" 100 =
      { success := false, error := some duplicateMsg }) ∧
    (deleteBlog true 3 [] (some "connection reset") =
      ({ success := false, error := some genericErrorMsg }, []) ∧
     getBlog true 3 [] (some "connection reset") =
      { success := false, error := some genericErrorMsg } ∧
     getPaginatedBlogs true (some "connection reset") 1 10 none [] =
      { success := false, error := some genericErrorMsg } ∧
     generatePresignedUrl true (fun _ => "signed") "b" "https://cdn" "uid"
        (some "connection reset") "image/png" 100 =
      { success := false, error := some genericErrorMsg }) := by
  constructor
  · exact (db_error_translator_shared "Duplicate entry hello for key slug" 3 1 10 none []
      (fun _ => "signed") "b" "https://cdn" "uid" "image/png" 100
      (by decide) (by decide)).1 (by decide)
  · exact (db_error_translator_shared "connection reset" 3 1 10 none []
      (fun _ => "signed") "b" "https://cdn" "uid" "image/png" 100
      (by decide) (by decide)).2 (by decide)

/-- C3: getPaginatedBlogs answers success with at most pageSize rows,
sorted by creation time descending, every returned row matching the
search condition; totalCount counts exactly the rows matching that same
condition, totalPages is the ceiling of totalCount over pageSize, and the
page is the offset-limit slice of the sorted filtered rows. -/
theorem getPaginatedBlogs_contract (page pageSize : Nat) (search : Option String)
    (st : List BlogRow) (hs : 0 < pageSize) :
    ∃ d : PaginatedBlogsData,
      getPaginatedBlogs true none page pageSize search st =
        { success := true, data := some d } ∧
      d.blogs.length ≤ pageSize ∧
      d.blogs.Pairwise createdDesc ∧
      (∀ b ∈ d.blogs, matchesSearch search b = true) ∧
      d.pagination.totalCount = (st.filter (matchesSearch search)).length ∧
      d.pagination.totalPages = mathCeilDiv d.pagination.totalCount pageSize ∧
      d.pagination.totalCount ≤ d.pagination.totalPages * pageSize ∧
      d.pagination.totalPages * pageSize < d.pagination.totalCount + pageSize ∧
      d.pagination.currentPage = page ∧
      d.pagination.pageSize = pageSize ∧
      d.blogs = ((List.insertionSort createdDesc (st.filter (matchesSearch search))).drop
        ((page - 1) * pageSize)).take pageSize := by
  refine ⟨⟨((List.insertionSort createdDesc (st.filter (matchesSearch search))).drop
        ((page - 1) * pageSize)).take pageSize,
      ⟨page, mathCeilDiv (st.filter (matchesSearch search)).length pageSize,
        (st.filter (matchesSearch search)).length, pageSize⟩⟩,
    rfl, List.length_take_le _ _, ?_, ?_, rfl, rfl,
    (mathCeilDiv_bounds _ _ hs).1, (mathCeilDiv_bounds _ _ hs).2, rfl, rfl, rfl⟩
  · exact List.Pairwise.sublist
      ((List.take_sublist _ _).trans (List.drop_sublist _ _))
      (show List.Pairwise createdDesc
          (List.insertionSort createdDesc (st.filter (matchesSearch search))) from
        List.sorted_insertionSort createdDesc _)
  · intro b hb
    have h1 : b ∈ List.insertionSort createdDesc (st.filter (matchesSearch search)) :=
      ((List.take_sublist _ _).trans (List.drop_sublist _ _)).subset hb
    have h2 : b ∈ st.filter (matchesSearch search) :=
      ((List.perm_insertionSort createdDesc _).mem_iff).1 h1
    exact (List.mem_filter.1 h2).2

/-- Witness for C3 at page one of size two over a three-row store with
the search term a. -/
theorem getPaginatedBlogs_contract_witness :
    0 < 2 ∧
    ∃ d : PaginatedBlogsData,
      getPaginatedBlogs true none 1 2 (some "a")
          [⟨1, "alpha", "s1", "x", "c", "draft", none, none, false, 5, 5⟩,
           ⟨2, "beta", "s2", "ya", "c", "draft", none, none, false, 9, 9⟩,
           ⟨3, "gamma", "s3", "x", "c", "draft", none, none, false, 7, 7⟩] =
        { success := true, data := some d } ∧
      d.blogs.length ≤ 2 ∧
      d.blogs.Pairwise createdDesc ∧
      (∀ b ∈ d.blogs, matchesSearch (some "a") b = true) ∧
      d.pagination.totalCount =
        (List.filter (matchesSearch (some "a"))
          [⟨1, "alpha", "s1", "x", "c", "draft", none, none, false, 5, 5⟩,
           ⟨2, "beta", "s2", "ya", "c", "draft", none, none, false, 9, 9⟩,
           ⟨3, "gamma", "s3", "x", "c", "draft", none, none, false, 7, 7⟩]).length ∧
      d.pagination.totalPages = mathCeilDiv d.pagination.totalCount 2 ∧
      d.pagination.totalCount ≤ d.pagination.totalPages * 2 ∧
      d.pagination.totalPages * 2 < d.pagination.totalCount + 2 ∧
      d.pagination.currentPage = 1 ∧
      d.pagination.pageSize = 2 ∧
      d.blogs = ((List.insertionSort createdDesc
        (List.filter (matchesSearch (some "a"))
          [⟨1, "alpha", "s1", "x", "c", "draft", none, none, false, 5, 5⟩,
           ⟨2, "beta", "s2", "ya", "c", "draft", none, none, false, 9, 9⟩,
           ⟨3, "gamma", "s3", "x", "c", "draft", none, none, false, 7, 7⟩])).drop
        ((1 - 1) * 2)).take 2 :=
  ⟨by decide, getPaginatedBlogs_contract 1 2 (some "a")
    [⟨1, "alpha", "s1", "x", "c", "draft", none, none, false, 5, 5⟩,
     ⟨2, "beta", "s2", "ya", "c", "draft", none, none, false, 9, 9⟩,
     ⟨3, "gamma", "s3", "x", "c", "draft", none, none, false, 7, 7⟩] (by decide)⟩

/-- C7: the weight of an untouched event defaults to the string "1.0",
and whenever the parsed weight is NaN or falls outside the closed unit
interval, handleAttachEvent rejects client-side with the range toast,
leaves the dialog state untouched, fires no callback and issues no attach
call. -/
theorem handleAttachEvent_weight_guard (ranklistId : Nat) (st : AttachDialogState)
    (eventId : Nat) (resp : AttachResponse)
    (hbad : ∀ v : ℚ, jsParseFloat (weightString st.eventWeights eventId) = some v →
      v < 0 ∨ 1 < v) :
    (List.lookup eventId st.eventWeights = none →
      weightString st.eventWeights eventId = "1.0") ∧
    (handleAttachEvent ranklistId st eventId resp).attachCall = none ∧
    (handleAttachEvent ranklistId st eventId resp).toastError =
      some "Weight must be between 0.0 and 1.0" ∧
    (handleAttachEvent ranklistId st eventId resp).dialog = st ∧
    (handleAttachEvent ranklistId st eventId resp).onSuccessCalled = false := by
  have hrest : (handleAttachEvent ranklistId st eventId resp).attachCall = none ∧
      (handleAttachEvent ranklistId st eventId resp).toastError =
        some "Weight must be between 0.0 and 1.0" ∧
      (handleAttachEvent ranklistId st eventId resp).dialog = st ∧
      (handleAttachEvent ranklistId st eventId resp).onSuccessCalled = false := by
    cases hp : jsParseFloat (weightString st.eventWeights eventId) with
    | none => simp [handleAttachEvent, hp]
    | some v =>
      have hv := hbad v hp
      simp [handleAttachEvent, hp, hv]
  exact ⟨fun h => by simp [weightString, h], hrest.1, hrest.2.1, hrest.2.2.1, hrest.2.2.2⟩

/-- Witness for C7 at a weight entry that parses to NaN. -/
theorem handleAttachEvent_weight_guard_witness :
    (List.lookup 5 [(5, "abc")] = none → weightString [(5, "abc")] 5 = "1.0") ∧
    (handleAttachEvent 7 ⟨"ab", [⟨5, "t", none, 0, "contest"⟩], [(5, "abc")]⟩ 5
        ⟨true, none⟩).attachCall = none ∧
    (handleAttachEvent 7 ⟨"ab", [⟨5, "t", none, 0, "contest"⟩], [(5, "abc")]⟩ 5
        ⟨true, none⟩).toastError = some "Weight must be between 0.0 and 1.0" ∧
    (handleAttachEvent 7 ⟨"ab", [⟨5, "t", none, 0, "contest"⟩], [(5, "abc")]⟩ 5
        ⟨true, none⟩).dialog = ⟨"ab", [⟨5, "t", none, 0, "contest"⟩], [(5, "abc")]⟩ ∧
    (handleAttachEvent 7 ⟨"ab", [⟨5, "t", none, 0, "contest"⟩], [(5, "abc")]⟩ 5
        ⟨true, none⟩).onSuccessCalled = false :=
  handleAttachEvent_weight_guard 7 ⟨"ab", [⟨5, "t", none, 0, "contest"⟩], [(5, "abc")]⟩ 5
    ⟨true, none⟩
    (fun v hv => by
      rw [show jsParseFloat (weightString [(5, "abc")] 5) = none from by decide] at hv
      exact Option.noConfusion hv)

/-- C8 counterexample: with the debounced query a, whose trimmed length is
one, the user-search dialog issues no search and also leaves the previous
nonempty result list in place, where the claim demands a cleared list for
both dialogs; the attach-event dialog does clear it. -/
theorem user_dialog_short_query_keeps_results :
    userDialogDebounceEffect "a" [⟨"u1", "Alice", "alice@diu.edu.bd", none, none⟩] =
      (false, [⟨"u1", "Alice", "alice@diu.edu.bd", none, none⟩]) ∧
    [⟨"u1", "Alice", "alice@diu.edu.bd", none, none⟩] ≠ ([] : List UserItem) ∧
    attachDialogDebounceEffect "a" [⟨1, "t", none, 0, "contest"⟩] = (false, []) :=
  ⟨by decide, by decide, by decide⟩

/-- C8 amended: in both dialogs the debounced effect starts a search
exactly when the trimmed query length is at least two; on a shorter query
the attach-event dialog clears its result list while the user-search
dialog leaves the current results in place, its effect having no clearing
branch (clearing there happens only through the change handler once the
input is emptied). -/
theorem debounce_search_threshold (d : String) (evs : List EventItem)
    (us : List UserItem) :
    ((attachDialogDebounceEffect d evs).1 = true ↔ 2 ≤ (jsTrim d).length) ∧
    ((userDialogDebounceEffect d us).1 = true ↔ 2 ≤ (jsTrim d).length) ∧
    (¬ 2 ≤ (jsTrim d).length →
      (attachDialogDebounceEffect d evs).2 = [] ∧
      (userDialogDebounceEffect d us).2 = us) := by
  by_cases hle : 2 ≤ (jsTrim d).length
  · have hne : d ≠ "" := by
      intro h
      rw [show (jsTrim d).length = 0 from by rw [h]; rfl] at hle
      exact absurd hle (by decide)
    simp [attachDialogDebounceEffect, userDialogDebounceEffect, hne, hle]
  · have hc : ¬ (d ≠ "" ∧ 2 ≤ (jsTrim d).length) := fun h => hle h.2
    simp [attachDialogDebounceEffect, userDialogDebounceEffect, hc, hle]

/-- Witness for C8 amended at the one-character query over nonempty result
lists. -/
theorem debounce_search_threshold_witness :
    ((attachDialogDebounceEffect "a" [⟨1, "t", none, 0, "contest"⟩]).1 = true ↔
      2 ≤ (jsTrim "a").length) ∧
    ((userDialogDebounceEffect "a" [⟨"u1", "Alice", "alice@diu.edu.bd", none, none⟩]).1 =
        true ↔ 2 ≤ (jsTrim "a").length) ∧
    (¬ 2 ≤ (jsTrim "a").length →
      (attachDialogDebounceEffect "a" [⟨1, "t", none, 0, "contest"⟩]).2 = [] ∧
      (userDialogDebounceEffect "a" [⟨"u1", "Alice", "alice@diu.edu.bd", none, none⟩]).2 =
        [⟨"u1", "Alice", "alice@diu.edu.bd", none, none⟩]) :=
  debounce_search_threshold "a" [⟨1, "t", none, 0, "contest"⟩]
    [⟨"u1", "Alice", "alice@diu.edu.bd", none, none⟩]

/-- C9 counterexample: with the query shortened to one character while a
sole result is still displayed, a successful attach removes the item and
fires onSuccess but does not re-issue the search, where the claim demands
a refresh whenever the removed item was the sole remaining result. -/
theorem attach_sole_result_no_refresh :
    (handleAttachEvent 7 ⟨"a", [⟨1, "CS Contest", none, 100, "contest"⟩], []⟩ 1
        ⟨true, none⟩).onSuccessCalled = true ∧
    (handleAttachEvent 7 ⟨"a", [⟨1, "CS Contest", none, 100, "contest"⟩], []⟩ 1
        ⟨true, none⟩).dialog.searchResults = [] ∧
    (handleAttachEvent 7 ⟨"a", [⟨1, "CS Contest", none, 100, "contest"⟩], []⟩ 1
        ⟨true, none⟩).searchReissued = false :=
  ⟨by decide, by decide, by decide⟩

/-- C9 amended: a successful add or attach removes exactly the entries
bearing the chosen id from the in-memory results, clears the per-event
weight entry, records the attach call with the parsed weight, and invokes
the success callback, the user-search dialog passing the returned data;
the search is re-issued when the removed item was the sole remaining
result, in the attach-event dialog only when additionally the trimmed
query still has length at least two, in the user-search dialog
unconditionally. -/
theorem add_attach_success_updates (ranklistId eventId : Nat)
    (st : AttachDialogState) (resp : AttachResponse) (v : ℚ)
    (hw : jsParseFloat (weightString st.eventWeights eventId) = some v)
    (h0 : ¬ (v < 0 ∨ 1 < v)) (hs : resp.success = true)
    (δ : Type) (results : List UserItem) (userId buttonLabelLower : String)
    (uresp : AddUserResponse δ) (hus : uresp.success = true) :
    (∀ e, e ∈ (handleAttachEvent ranklistId st eventId resp).dialog.searchResults ↔
      (e ∈ st.searchResults ∧ e.id ≠ eventId)) ∧
    List.lookup eventId
      (handleAttachEvent ranklistId st eventId resp).dialog.eventWeights = none ∧
    (handleAttachEvent ranklistId st eventId resp).onSuccessCalled = true ∧
    (handleAttachEvent ranklistId st eventId resp).attachCall =
      some (ranklistId, eventId, v) ∧
    ((handleAttachEvent ranklistId st eventId resp).searchReissued = true ↔
      (st.searchResults.length = 1 ∧ 2 ≤ (jsTrim st.searchQuery).length)) ∧
    (∀ u, u ∈ (handleAddUser δ results userId buttonLabelLower uresp).newResults ↔
      (u ∈ results ∧ u.id ≠ userId)) ∧
    (handleAddUser δ results userId buttonLabelLower uresp).callbackArg =
      some uresp.data ∧
    ((handleAddUser δ results userId buttonLabelLower uresp).searchReissued = true ↔
      results.length = 1) := by
  refine ⟨?_, ?_, ?_, ?_, ?_, ?_, ?_, ?_⟩ <;>
    simp [handleAttachEvent, handleAddUser, hw, h0, hs, hus, List.mem_filter,
      bne_iff_ne, decide_eq_true_iff, lookup_filter_ne_eq_none]

/-- Witness for C9 amended at a two-character query, a sole matching
event with the untouched default weight, and a one-user result list. -/
theorem add_attach_success_updates_witness :
    (∀ e, e ∈ (handleAttachEvent 7 ⟨"ab", [⟨1, "CS Contest", none, 100, "contest"⟩], []⟩ 1
        ⟨true, none⟩).dialog.searchResults ↔
      (e ∈ [⟨1, "CS Contest", none, 100, "contest"⟩] ∧ e.id ≠ 1)) ∧
    List.lookup 1
      (handleAttachEvent 7 ⟨"ab", [⟨1, "CS Contest", none, 100, "contest"⟩], []⟩ 1
        ⟨true, none⟩).dialog.eventWeights = none ∧
    (handleAttachEvent 7 ⟨"ab", [⟨1, "CS Contest", none, 100, "contest"⟩], []⟩ 1
        ⟨true, none⟩).onSuccessCalled = true ∧
    (handleAttachEvent 7 ⟨"ab", [⟨1, "CS Contest", none, 100, "contest"⟩], []⟩ 1
        ⟨true, none⟩).attachCall = some (7, 1, 1) ∧
    ((handleAttachEvent 7 ⟨"ab", [⟨1, "CS Contest", none, 100, "contest"⟩], []⟩ 1
        ⟨true, none⟩).searchReissued = true ↔
      (([⟨1, "CS Contest", none, 100, "contest"⟩] : List EventItem).length = 1 ∧
        2 ≤ (jsTrim "ab").length)) ∧
    (∀ u, u ∈ (handleAddUser Nat [⟨"u1", "Alice", "alice@diu.edu.bd", none, none⟩] "u1"
        "add user" ⟨true, none, some 42⟩).newResults ↔
      (u ∈ [⟨"u1", "Alice", "alice@diu.edu.bd", none, none⟩] ∧ u.id ≠ "u1")) ∧
    (handleAddUser Nat [⟨"u1", "Alice", "alice@diu.edu.bd", none, none⟩] "u1"
        "add user" ⟨true, none, some 42⟩).callbackArg = some (some 42) ∧
    ((handleAddUser Nat [⟨"u1", "Alice", "alice@diu.edu.bd", none, none⟩] "u1"
        "add user" ⟨true, none, some 42⟩).searchReissued = true ↔
      ([⟨"u1", "Alice", "alice@diu.edu.bd", none, none⟩] : List UserItem).length = 1) :=
  add_attach_success_updates 7 1 ⟨"ab", [⟨1, "CS Contest", none, 100, "contest"⟩], []⟩
    ⟨true, none⟩ 1 (by decide) (by decide) rfl
    Nat [⟨"u1", "Alice", "alice@diu.edu.bd", none, none⟩] "u1" "add user"
    ⟨true, none, some 42⟩ rfl
